import Mathlib

/-!
Verification development for `net/mptcp/mptcp_wbbr.c` (the "wBBR" congestion
control decision engine for multipath TCP).

The engine is embedded shallowly: every C function of the core becomes a pure
Lean function over an explicit state record.  Machine integers are modelled by
`Nat`/`Int`; a truncation `% 2^32` or `% 2^64` is written exactly where the C
code stores into a fixed-width field or relies on wrap-around (sequence-number
style comparisons, casts to `s32`, narrowing to `u32`, bitfield widths).
Additions on packet counts (cwnd, acked, in-flight) are left on plain `Nat`:
they stay far below `2^32` on every path the source exercises, and no claim
depends on their wrap-around.
-/

/-- Interpret a natural number as the C cast `(s32)x` applied to a 32-bit
value: reduce mod `2^32` and read the result as a signed 32-bit integer. -/
def toS32 (n : Nat) : Int :=
  if n % 2^32 < 2^31 then ((n % 2^32 : Nat) : Int)
  else ((n % 2^32 : Nat) : Int) - 2^32

/-- Wrapping 32-bit subtraction `a - b`, as C computes it on `u32` operands. -/
def u32sub (a b : Nat) : Nat :=
  (a % 2^32 + (2^32 - b % 2^32)) % 2^32

/-- Kernel macro `before(a, b)` on wrapping 32-bit counters: `(s32)(a - b) < 0`. -/
def seq_before (a b : Nat) : Bool := decide (toS32 (u32sub a b) < 0)

/-- Kernel macro `after(a, b)`, defined as `before(b, a)`. -/
def seq_after (a b : Nat) : Bool := seq_before b a

/-- Modelled from the spec: the windowed-max filter (`struct minmax` of
`linux/win_minmax.h`, which is not part of this repository's sources; only its
use sites are).  Per the spec the filter "retains the sample if it is the
largest seen among samples tagged with a round index within
windowLengthInRounds of currentRound; older entries are evicted lazily".
We model the retained candidate samples as a list of (round, value) pairs. -/
structure Minmax where
  samples : List (Nat × Nat)
deriving DecidableEq

/-- Modelled from the spec: reset the filter to a single sample. -/
def minmax_reset (t v : Nat) : Minmax := ⟨[(t, v)]⟩

/-- Modelled from the spec: current maximum among retained samples. -/
def minmax_get (m : Minmax) : Nat := m.samples.foldl (fun a s => max a s.2) 0

/-- Modelled from the spec: record a new sample at round `t`, evicting samples
older than the window of `win` rounds. -/
def minmax_running_max (m : Minmax) (win t v : Nat) : Minmax :=
  ⟨(t, v) :: m.samples.filter (fun s => decide (t ≤ s.1 + win))⟩

/-- Values of `enum wbbr_mode`. -/
inductive WbbrMode where
  | startup
  | drain
  | probeBW
  | probeRTT
deriving DecidableEq

/-- Facts about one sibling subflow read by `wbbr_weight`: the
`mptcp_sk_can_send` capability flag and the sibling's `instant_rate` field. -/
structure Subflow where
  can_send : Bool
  instant_rate : Nat
deriving DecidableEq

/-- Fields of `struct rate_sample` read by this module.  `delivered`,
`interval_us` and `rtt_us` are signed in the source (negative values flag an
invalid observation), so they are `Int` here. -/
structure RateSample where
  delivered : Int
  interval_us : Int
  rtt_us : Int
  losses : Nat
  prior_in_flight : Nat
  prior_delivered : Nat
  is_app_limited : Bool
  acked_sacked : Nat
deriving DecidableEq

/-- Read-only connection facts supplied by the transport stack on one
invocation (fields of `tcp_sock` / `sock` the engine reads but does not own,
plus the external helpers' results).  `tso_autosize1` / `tso_autosize2` are
the values of the external `tcp_tso_autosize(sk, mss_cache, min_segs)` for
`min_segs` 1 and 2; `rand` feeds `prandom_u32_max`. -/
structure Env where
  delivered : Nat
  lost : Nat
  delivered_mstamp_us : Nat
  delivered_stamp_jiffies : Nat
  tcp_time_stamp : Nat
  in_flight : Nat
  srtt_us : Nat
  mtu : Nat
  snd_cwnd_clamp : Nat
  max_pacing_rate : Nat
  ca_state : Nat
  rand : Nat
  tso_autosize1 : Nat
  tso_autosize2 : Nat
  mpcb : Option (List Subflow)
deriving DecidableEq

/-- The congestion-control block `struct wbbr`, together with the three
connection fields the engine writes back (`tp->snd_cwnd`,
`sk->sk_pacing_rate`, `tp->app_limited`).  Bitfield widths that the code can
actually reach the top of are modelled by explicit truncation at each store
(`lt_rtt_cnt` is 7 bits, `full_bw_cnt` and `cycle_idx` 3 bits). -/
structure Wbbr where
  min_rtt_us : Nat
  min_rtt_stamp : Nat
  probe_rtt_done_stamp : Nat
  bw : Minmax
  rtt_cnt : Nat
  next_rtt_delivered : Nat
  cycle_mstamp : Nat
  mode : WbbrMode
  prev_ca_state : Nat
  packet_conservation : Bool
  restore_cwnd : Bool
  round_start : Bool
  tso_segs_goal : Nat
  idle_restart : Bool
  probe_rtt_round_done : Bool
  lt_is_sampling : Bool
  lt_rtt_cnt : Nat
  lt_use_bw : Bool
  lt_bw : Nat
  lt_last_delivered : Nat
  lt_last_stamp : Nat
  lt_last_lost : Nat
  pacing_gain : Nat
  cwnd_gain : Nat
  full_bw_cnt : Nat
  cycle_idx : Nat
  has_seen_rtt : Bool
  prior_cwnd : Nat
  full_bw : Nat
  instant_rate : Nat
  snd_cwnd : Nat
  sk_pacing_rate : Nat
  tp_app_limited : Nat
deriving DecidableEq

/-- `WBBR_SCALE` is 8; `WBBR_UNIT = 1 << 8`. -/
def WBBR_UNIT : Nat := 256

/-- `BW_SCALE` is 24; `BW_UNIT = 1 << 24`. -/
def BW_UNIT : Nat := 2^24

/-- Kernel constant `TCP_INIT_CWND` (the default initial window, 10). -/
def TCP_INIT_CWND : Nat := 10

/-- `WBBR_UNIT * 2885 / 1000 + 1` (≈ 2.89 in fixed point). -/
def wbbr_high_gain : Nat := WBBR_UNIT * 2885 / 1000 + 1

/-- `WBBR_UNIT * 1000 / 2885` (≈ 1/2.89 in fixed point). -/
def wbbr_drain_gain : Nat := WBBR_UNIT * 1000 / 2885

/-- Steady-state cwnd gain, `WBBR_UNIT * 2`. -/
def wbbr_cwnd_gain : Nat := WBBR_UNIT * 2

/-- The `wbbr_pacing_gain[]` table for the PROBE_BW gain cycle. -/
def wbbr_pacing_gain : List Nat :=
  [WBBR_UNIT * 5 / 4, WBBR_UNIT * 3 / 4,
   WBBR_UNIT, WBBR_UNIT, WBBR_UNIT, WBBR_UNIT, WBBR_UNIT, WBBR_UNIT]

/-- `wbbr_cycle_rand`: randomize the starting phase over 7 of the 8 slots. -/
def wbbr_cycle_rand : Nat := 7

/-- Minimum cwnd target, 4 packets. -/
def wbbr_cwnd_min_target : Nat := 4

/-- Full-pipe growth threshold `WBBR_UNIT * 5 / 4` (25%). -/
def wbbr_full_bw_thresh : Nat := WBBR_UNIT * 5 / 4

/-- Rounds without significant growth before the pipe is deemed full. -/
def wbbr_full_bw_cnt : Nat := 3

/-- Minimum rounds in a long-term sampling interval. -/
def wbbr_lt_intvl_min_rtts : Nat := 4

/-- Long-term lossy-interval threshold, 50 in `WBBR_SCALE` fixed point. -/
def wbbr_lt_loss_thresh : Nat := 50

/-- Long-term consistency: absolute byte-rate slack, `4000 / 8` bytes/sec. -/
def wbbr_lt_bw_diff : Nat := 4000 / 8

/-- Rounds to keep using `lt_bw` once policed. -/
def wbbr_lt_bw_max_rtts : Nat := 48

/-- Window length of the bandwidth filter in rounds (`CYCLE_LEN + 2`). -/
def wbbr_bw_rtts : Nat := 10

/-- Window length of the min-RTT filter in seconds. -/
def wbbr_min_rtt_win_sec : Nat := 10

/-- Minimum milliseconds spent at the cwnd floor in PROBE_RTT. -/
def wbbr_probe_rtt_mode_ms : Nat := 200

/-- Bandwidth below which TSO is skipped (bits/sec). -/
def wbbr_min_tso_rate : Nat := 1200000

/-- `wbbr_full_bw_reached`: do we estimate that STARTUP filled the pipe? -/
def wbbr_full_bw_reached (st : Wbbr) : Prop :=
  wbbr_full_bw_cnt ≤ st.full_bw_cnt

instance (st : Wbbr) : Decidable (wbbr_full_bw_reached st) := by
  unfold wbbr_full_bw_reached; infer_instance

/-- `wbbr_max_bw`: windowed max recent bandwidth sample. -/
def wbbr_max_bw (st : Wbbr) : Nat := minmax_get st.bw

/-- `wbbr_bw`: estimated bandwidth of the path. -/
def wbbr_bw (st : Wbbr) : Nat :=
  if st.lt_use_bw then st.lt_bw else wbbr_max_bw st

/-- `wbbr_rate_bytes_per_sec`: convert a rate (pkts/uS << 24) and a gain to
bytes per second.  The multiplication order follows the source; each step is
`u64`, hence the `% 2^64` truncations. -/
def wbbr_rate_bytes_per_sec (env : Env) (rate gain : Nat) : Nat :=
  let r := rate * env.mtu % 2^64
  let r := r * gain % 2^64
  let r := r >>> 8
  let r := r * 1000000 % 2^64
  r >>> 24

/-- `wbbr_bw_to_pacing_rate`: cap at `sk_max_pacing_rate` and narrow to the
`u32` return type. -/
def wbbr_bw_to_pacing_rate (env : Env) (bw gain : Nat) : Nat :=
  min (wbbr_rate_bytes_per_sec env bw gain) env.max_pacing_rate % 2^32

/-- `wbbr_init_pacing_rate_from_rtt`: bootstrap the pacing rate from
`high_gain * cwnd / RTT` once a smoothed RTT is known. -/
def wbbr_init_pacing_rate_from_rtt (env : Env) (st : Wbbr) : Wbbr :=
  let rtt_us := if env.srtt_us ≠ 0 then max (env.srtt_us >>> 3) 1 else 1000
  let st := if env.srtt_us ≠ 0 then {st with has_seen_rtt := true} else st
  let bw := st.snd_cwnd * BW_UNIT / rtt_us
  {st with sk_pacing_rate := wbbr_bw_to_pacing_rate env bw wbbr_high_gain}

/-- `wbbr_set_pacing_rate`: commit the model's pacing rate, but while the pipe
is not yet estimated full only ever raise the committed rate. -/
def wbbr_set_pacing_rate (env : Env) (st : Wbbr) (bw gain : Nat) : Wbbr :=
  let rate := wbbr_bw_to_pacing_rate env bw gain
  let st := if st.has_seen_rtt = false ∧ env.srtt_us ≠ 0 then
      wbbr_init_pacing_rate_from_rtt env st
    else st
  if wbbr_full_bw_reached st ∨ rate > st.sk_pacing_rate then
    {st with sk_pacing_rate := rate}
  else st

/-- `wbbr_set_tso_segs_goal` (the external `tcp_tso_autosize` result is
supplied through `Env`; `0x7F` caps the 7-bit field). -/
def wbbr_set_tso_segs_goal (env : Env) (st : Wbbr) : Wbbr :=
  let min_segs := if st.sk_pacing_rate < wbbr_min_tso_rate >>> 3 then 1 else 2
  let autosz := if min_segs = 1 then env.tso_autosize1 else env.tso_autosize2
  {st with tso_segs_goal := min autosz 127}

/-- `wbbr_save_cwnd`: save the last known good cwnd. -/
def wbbr_save_cwnd (st : Wbbr) : Wbbr :=
  if st.prev_ca_state < 3 ∧ st.mode ≠ WbbrMode.probeRTT then
    {st with prior_cwnd := st.snd_cwnd}
  else
    {st with prior_cwnd := max st.prior_cwnd st.snd_cwnd}

/-- `wbbr_target_cwnd`: window target from bandwidth, min RTT and gain.
`~0U` is the never-measured sentinel for `min_rtt_us`; `(cwnd + 1) & ~1U`
clears the low bit of the 32-bit sum, i.e. `((cwnd + 1) % 2^32) / 2 * 2`. -/
def wbbr_target_cwnd (st : Wbbr) (bw gain : Nat) : Nat :=
  if st.min_rtt_us = 2^32 - 1 then TCP_INIT_CWND
  else
    let w := bw * st.min_rtt_us
    let cwnd := ((w * gain % 2^64) >>> 8 + BW_UNIT - 1) % 2^64 / BW_UNIT % 2^32
    let cwnd := (cwnd + 3 * st.tso_segs_goal) % 2^32
    (cwnd + 1) % 2^32 / 2 * 2

/-- `wbbr_set_cwnd_to_recover_or_restore`: recovery bookkeeping.  Returns the
updated block, the `*new_cwnd` output and the C function's Bool result (true
means packet conservation is in force).  `max_t(s32, cwnd - rs->losses, 1)`
is the signed reading of the wrapping `u32` subtraction. -/
def wbbr_set_cwnd_to_recover_or_restore
    (env : Env) (st : Wbbr) (rs : RateSample) (acked : Nat) : Wbbr × Nat × Bool :=
  let state := env.ca_state
  let cwnd0 := if rs.losses > 0 then
      (max (toS32 (u32sub st.snd_cwnd rs.losses)) 1).toNat
    else st.snd_cwnd
  let stp := st
  let (st, cwnd) :=
    if state = 3 ∧ stp.prev_ca_state ≠ 3 then
      ({stp with packet_conservation := true, next_rtt_delivered := env.delivered},
       env.in_flight + acked)
    else if 3 ≤ stp.prev_ca_state ∧ state < 3 then
      ({stp with restore_cwnd := true, packet_conservation := false}, cwnd0)
    else (stp, cwnd0)
  let st := {st with prev_ca_state := state}
  let (st, cwnd) :=
    if st.restore_cwnd then
      ({st with restore_cwnd := false}, max cwnd st.prior_cwnd)
    else (st, cwnd)
  if st.packet_conservation then (st, max cwnd (env.in_flight + acked), true)
  else (st, cwnd, false)

/-- `wbbr_set_cwnd`: slow-start toward the target window, or snap down to it,
then apply the global clamp and the PROBE_RTT floor cap. -/
def wbbr_set_cwnd (env : Env) (st : Wbbr) (rs : RateSample)
    (acked bw gain : Nat) : Wbbr :=
  if acked = 0 then st
  else
    let r := wbbr_set_cwnd_to_recover_or_restore env st rs acked
    let st := r.1
    let cwnd :=
      if r.2.2 then r.2.1
      else
        let target_cwnd := wbbr_target_cwnd st bw gain
        let cwnd :=
          if wbbr_full_bw_reached st then min (r.2.1 + acked) target_cwnd
          else if r.2.1 < target_cwnd ∨ env.delivered < TCP_INIT_CWND then r.2.1 + acked
          else r.2.1
        max cwnd wbbr_cwnd_min_target
    let snd := min cwnd env.snd_cwnd_clamp
    {st with snd_cwnd :=
      if st.mode = WbbrMode.probeRTT then min snd wbbr_cwnd_min_target else snd}

/-- `wbbr_is_next_cycle_phase`: end the cycle phase if it is time and/or the
phase's in-flight target was hit.  `skb_mstamp_us_delta` is the (external)
microsecond difference of the two timestamps. -/
def wbbr_is_next_cycle_phase (env : Env) (st : Wbbr) (rs : RateSample) : Bool :=
  let is_full_length :=
    decide ((env.delivered_mstamp_us : Int) - (st.cycle_mstamp : Int) > (st.min_rtt_us : Int))
  if st.pacing_gain = WBBR_UNIT then is_full_length
  else
    let inflight := rs.prior_in_flight
    let bw := wbbr_max_bw st
    if st.pacing_gain > WBBR_UNIT then
      is_full_length &&
        (decide (rs.losses ≠ 0) ||
         decide (inflight ≥ wbbr_target_cwnd st bw st.pacing_gain))
    else
      is_full_length || decide (inflight ≤ wbbr_target_cwnd st bw WBBR_UNIT)

/-- `wbbr_advance_cycle_phase`: step the 8-phase gain cycle
(`& (CYCLE_LEN - 1)` on the 3-bit index is `% 8`). -/
def wbbr_advance_cycle_phase (env : Env) (st : Wbbr) : Wbbr :=
  let idx := (st.cycle_idx + 1) % 8
  {st with cycle_idx := idx,
           cycle_mstamp := env.delivered_mstamp_us,
           pacing_gain := wbbr_pacing_gain.getD idx 0}

/-- `wbbr_update_cycle_phase`: gain cycling, only in PROBE_BW and only when
not in long-term mode. -/
def wbbr_update_cycle_phase (env : Env) (st : Wbbr) (rs : RateSample) : Wbbr :=
  if st.mode = WbbrMode.probeBW ∧ st.lt_use_bw = false ∧
      wbbr_is_next_cycle_phase env st rs = true then
    wbbr_advance_cycle_phase env st
  else st

/-- `wbbr_reset_startup_mode`. -/
def wbbr_reset_startup_mode (st : Wbbr) : Wbbr :=
  {st with mode := WbbrMode.startup,
           pacing_gain := wbbr_high_gain,
           cwnd_gain := wbbr_high_gain}

/-- `wbbr_reset_probe_bw_mode`: enter PROBE_BW at a pseudo-random phase
(`prandom_u32_max(wbbr_cycle_rand)` is modelled as `env.rand % 7`), then flip
to the next phase of the gain cycle. -/
def wbbr_reset_probe_bw_mode (env : Env) (st : Wbbr) : Wbbr :=
  let st := {st with mode := WbbrMode.probeBW,
                     pacing_gain := WBBR_UNIT,
                     cwnd_gain := wbbr_cwnd_gain,
                     cycle_idx := 8 - 1 - env.rand % wbbr_cycle_rand}
  wbbr_advance_cycle_phase env st

/-- `wbbr_reset_mode`. -/
def wbbr_reset_mode (env : Env) (st : Wbbr) : Wbbr :=
  if ¬ wbbr_full_bw_reached st then wbbr_reset_startup_mode st
  else wbbr_reset_probe_bw_mode env st

/-- `wbbr_reset_lt_bw_sampling_interval`: start a new long-term sampling
interval at the current delivery marks. -/
def wbbr_reset_lt_bw_sampling_interval (env : Env) (st : Wbbr) : Wbbr :=
  {st with lt_last_stamp := env.delivered_stamp_jiffies % 2^32,
           lt_last_delivered := env.delivered,
           lt_last_lost := env.lost,
           lt_rtt_cnt := 0}

/-- `wbbr_reset_lt_bw_sampling`: completely reset long-term sampling. -/
def wbbr_reset_lt_bw_sampling (env : Env) (st : Wbbr) : Wbbr :=
  wbbr_reset_lt_bw_sampling_interval env
    {st with lt_bw := 0, lt_use_bw := false, lt_is_sampling := false}

/-- `wbbr_lt_bw_interval_done`: a long-term interval closed with estimate
`bw`; decide whether we are policed.  `abs(bw - wbbr->lt_bw)` is the C `abs`
of the wrapping `u32` difference read as `int`; `wbbr_lt_bw_ratio` is
`WBBR_UNIT / 8 = 32`; the average `(bw + lt_bw) >> 1` is a `u32` sum. -/
def wbbr_lt_bw_interval_done (env : Env) (st : Wbbr) (bw : Nat) : Wbbr :=
  if st.lt_bw ≠ 0 then
    if (toS32 (u32sub bw st.lt_bw)).natAbs * WBBR_UNIT ≤ 32 * st.lt_bw ∨
        wbbr_rate_bytes_per_sec env (toS32 (u32sub bw st.lt_bw)).natAbs WBBR_UNIT
          ≤ wbbr_lt_bw_diff then
      {st with lt_bw := ((bw + st.lt_bw) % 2^32) >>> 1,
               lt_use_bw := true,
               pacing_gain := WBBR_UNIT,
               lt_rtt_cnt := 0}
    else
      wbbr_reset_lt_bw_sampling_interval env {st with lt_bw := bw}
  else
    wbbr_reset_lt_bw_sampling_interval env {st with lt_bw := bw}

/-- `wbbr_lt_bw_sampling`, instrumented: the returned Bool records whether
control reached `wbbr_lt_bw_interval_done` (the interval closed and yielded a
bandwidth estimate).  `lt_rtt_cnt` is a 7-bit field, hence `% 128`;
`jiffies_to_usecs` with HZ = 1000 multiplies by 1000 and returns `u32`,
re-read as `s32`. -/
def wbbr_lt_bw_sampling_aux (env : Env) (st : Wbbr) (rs : RateSample) :
    Wbbr × Bool :=
  if st.lt_use_bw then
    (if st.mode = WbbrMode.probeBW ∧ st.round_start = true then
       let cnt := (st.lt_rtt_cnt + 1) % 128
       if wbbr_lt_bw_max_rtts ≤ cnt then
         wbbr_reset_probe_bw_mode env (wbbr_reset_lt_bw_sampling env st)
       else {st with lt_rtt_cnt := cnt}
     else st, false)
  else
    if st.lt_is_sampling = false ∧ rs.losses = 0 then (st, false)
    else
      let st := if st.lt_is_sampling = false then
          {wbbr_reset_lt_bw_sampling_interval env st with lt_is_sampling := true}
        else st
      if rs.is_app_limited then (wbbr_reset_lt_bw_sampling env st, false)
      else
        let st := if st.round_start then
            {st with lt_rtt_cnt := (st.lt_rtt_cnt + 1) % 128}
          else st
        if st.lt_rtt_cnt < wbbr_lt_intvl_min_rtts then (st, false)
        else if 4 * wbbr_lt_intvl_min_rtts < st.lt_rtt_cnt then
          (wbbr_reset_lt_bw_sampling env st, false)
        else if rs.losses = 0 then (st, false)
        else
          let lost := u32sub env.lost st.lt_last_lost
          let delivered := u32sub env.delivered st.lt_last_delivered
          if delivered = 0 ∨ lost * WBBR_UNIT < wbbr_lt_loss_thresh * delivered then
            (st, false)
          else
            let t := toS32 (u32sub (env.delivered_stamp_jiffies % 2^32) st.lt_last_stamp)
            if t < 1 then (st, false)
            else
              let t2 := toS32 (1000 * t.toNat % 2^32)
              if t2 < 1 then (wbbr_reset_lt_bw_sampling env st, false)
              else
                let bw := delivered * BW_UNIT / t2.toNat
                (wbbr_lt_bw_interval_done env st (bw % 2^32), true)

/-- `wbbr_lt_bw_sampling`: the state effect of long-term sampling. -/
def wbbr_lt_bw_sampling (env : Env) (st : Wbbr) (rs : RateSample) : Wbbr :=
  (wbbr_lt_bw_sampling_aux env st rs).1

/-- `wbbr_update_bw`: round-trip detection, long-term sampling, and the max
bandwidth filter update.  The bandwidth sample is `u64` but the filter stores
`u32`, hence the narrowing at the store. -/
def wbbr_update_bw (env : Env) (st : Wbbr) (rs : RateSample) : Wbbr :=
  let st := {st with round_start := false}
  if rs.delivered < 0 ∨ rs.interval_us ≤ 0 then st
  else
    let st := if seq_before rs.prior_delivered st.next_rtt_delivered = false then
        {st with next_rtt_delivered := env.delivered,
                 rtt_cnt := st.rtt_cnt + 1,
                 round_start := true,
                 packet_conservation := false}
      else st
    let st := wbbr_lt_bw_sampling env st rs
    let bw := rs.delivered.toNat * BW_UNIT / rs.interval_us.toNat
    if rs.is_app_limited = false ∨ bw ≥ wbbr_max_bw st then
      {st with bw := minmax_running_max st.bw wbbr_bw_rtts st.rtt_cnt (bw % 2^32)}
    else st

/-- `wbbr_check_full_bw_reached`: estimate when STARTUP filled the pipe.
`bw_thresh` is a `u32`; `full_bw_cnt` is a 3-bit field. -/
def wbbr_check_full_bw_reached (env : Env) (st : Wbbr) (rs : RateSample) : Wbbr :=
  if wbbr_full_bw_reached st ∨ st.round_start = false ∨ rs.is_app_limited = true then st
  else
    let bw_thresh := (st.full_bw * wbbr_full_bw_thresh) >>> 8 % 2^32
    if wbbr_max_bw st ≥ bw_thresh then
      {st with full_bw := wbbr_max_bw st, full_bw_cnt := 0}
    else
      {st with full_bw_cnt := (st.full_bw_cnt + 1) % 8}

/-- `wbbr_check_drain`: leave STARTUP for DRAIN once the pipe is full, and
DRAIN for PROBE_BW once in-flight has fallen to the gain-1.0 target. -/
def wbbr_check_drain (env : Env) (st : Wbbr) (rs : RateSample) : Wbbr :=
  let st := if st.mode = WbbrMode.startup ∧ wbbr_full_bw_reached st then
      {st with mode := WbbrMode.drain,
               pacing_gain := wbbr_drain_gain,
               cwnd_gain := wbbr_high_gain}
    else st
  if st.mode = WbbrMode.drain ∧
      env.in_flight ≤ wbbr_target_cwnd st (wbbr_max_bw st) WBBR_UNIT then
    wbbr_reset_probe_bw_mode env st
  else st

/-- `wbbr_update_min_rtt`: min-RTT tracking, PROBE_RTT entry, the PROBE_RTT
dwell logic and exit.  `msecs_to_jiffies(200)` with HZ = 1000 is 200; the
`tp->app_limited = (tp->delivered + tcp_packets_in_flight(tp)) ? : 1` store
is a `u32` sum with the `?:` default. -/
def wbbr_update_min_rtt (env : Env) (st : Wbbr) (rs : RateSample) : Wbbr :=
  let filter_expired :=
    seq_after env.tcp_time_stamp ((st.min_rtt_stamp + wbbr_min_rtt_win_sec * 1000) % 2^32)
  let st := if 0 ≤ rs.rtt_us ∧
      (rs.rtt_us ≤ (st.min_rtt_us : Int) ∨ filter_expired = true) then
      {st with min_rtt_us := rs.rtt_us.toNat, min_rtt_stamp := env.tcp_time_stamp}
    else st
  let st := if wbbr_probe_rtt_mode_ms > 0 ∧ filter_expired = true ∧
      st.idle_restart = false ∧ st.mode ≠ WbbrMode.probeRTT then
      let st := {st with mode := WbbrMode.probeRTT,
                         pacing_gain := WBBR_UNIT,
                         cwnd_gain := WBBR_UNIT}
      let st := wbbr_save_cwnd st
      {st with probe_rtt_done_stamp := 0}
    else st
  let st := if st.mode = WbbrMode.probeRTT then
      let v := (env.delivered + env.in_flight) % 2^32
      let st : Wbbr := {st with tp_app_limited := if v = 0 then 1 else v}
      if st.probe_rtt_done_stamp = 0 ∧ env.in_flight ≤ wbbr_cwnd_min_target then
        {st with probe_rtt_done_stamp := (env.tcp_time_stamp + wbbr_probe_rtt_mode_ms) % 2^32,
                 probe_rtt_round_done := false,
                 next_rtt_delivered := env.delivered}
      else if st.probe_rtt_done_stamp ≠ 0 then
        let st := if st.round_start then {st with probe_rtt_round_done := true} else st
        if st.probe_rtt_round_done = true ∧
            seq_after env.tcp_time_stamp st.probe_rtt_done_stamp = true then
          let st := {st with min_rtt_stamp := env.tcp_time_stamp, restore_cwnd := true}
          wbbr_reset_mode env st
        else st
      else st
    else st
  {st with idle_restart := false}

/-- `wbbr_update_model`. -/
def wbbr_update_model (env : Env) (st : Wbbr) (rs : RateSample) : Wbbr :=
  let st := wbbr_update_bw env st rs
  let st := wbbr_update_cycle_phase env st rs
  let st := wbbr_check_full_bw_reached env st rs
  let st := wbbr_check_drain env st rs
  wbbr_update_min_rtt env st rs

/-- Sum of `sub_wbbr->instant_rate` over the send-eligible subflows of the
multipath group (the loop body of `wbbr_weight`; the loop's unused read of
the caller's own windowed-max filter has no effect and is omitted). -/
def wbbr_total_rate (subs : List Subflow) : Nat :=
  subs.foldl (fun acc s => if s.can_send then acc + s.instant_rate else acc) 0

/-- `wbbr_weight`: this subflow's fractional share (fixed point, unit 256) of
the group's aggregate instantaneous rate.  `instant_rate * WBBR_UNIT` is a
`u32` product in the source, hence the truncation before the 64-bit divide. -/
def wbbr_weight (mpcb : Option (List Subflow)) (instant_rate : Nat) : Nat :=
  match mpcb with
  | none => WBBR_UNIT
  | some subs =>
    let total_rate := wbbr_total_rate subs
    if total_rate ≠ 0 ∧ instant_rate ≠ 0 then
      instant_rate * WBBR_UNIT % 2^32 / total_rate
    else WBBR_UNIT

/-- `wbbr_main`: the per-acknowledgment entry point. -/
def wbbr_main (env : Env) (st : Wbbr) (rs : RateSample) : Wbbr :=
  let st := wbbr_update_model env st rs
  let bw := wbbr_bw st
  let st := {st with instant_rate := bw}
  let st := wbbr_set_pacing_rate env st bw
    ((st.pacing_gain * wbbr_weight env.mpcb st.instant_rate) >>> 8)
  let st := wbbr_set_tso_segs_goal env st
  wbbr_set_cwnd env st rs rs.acked_sacked bw st.cwnd_gain

/-!
Spec-side definitions.  These follow the specification's wording and are
compared against the translated code above.
-/

/-- Ceiling division, for the spec's "ceil(bandwidth × min-RTT × gain /
unit-scale)". -/
def ceilDiv (a b : Nat) : Nat := (a + b - 1) / b

/-- Rounding up to the next even number, for the spec's "rounded up to an
even number". -/
def roundUpEven (n : Nat) : Nat := (n + 1) / 2 * 2

/-- Spec-side statement of the cycle-phase advancement rule (C5): a phase
ends when its wall-clock duration has reached one min-RTT interval AND,
depending on the phase's gain: if gain > 1.0, the phase also requires
in-flight to have reached the higher target or a loss to have been observed;
if gain < 1.0, the phase additionally ends early if in-flight has drained to
the gain-1.0 target; if gain == 1.0, wall-clock elapsed alone suffices. -/
def cycle_phase_ends_spec (env : Env) (st : Wbbr) (rs : RateSample) : Bool :=
  let elapsed :=
    decide ((env.delivered_mstamp_us : Int) - (st.cycle_mstamp : Int) > (st.min_rtt_us : Int))
  if WBBR_UNIT < st.pacing_gain then
    elapsed &&
      (decide (wbbr_target_cwnd st (wbbr_max_bw st) st.pacing_gain ≤ rs.prior_in_flight) ||
       decide (rs.losses ≠ 0))
  else if st.pacing_gain < WBBR_UNIT then
    elapsed || decide (rs.prior_in_flight ≤ wbbr_target_cwnd st (wbbr_max_bw st) WBBR_UNIT)
  else elapsed

/-- Base connection-state record used to build concrete test states. -/
def st0 : Wbbr :=
  { min_rtt_us := 2^32 - 1
    min_rtt_stamp := 0
    probe_rtt_done_stamp := 0
    bw := minmax_reset 0 0
    rtt_cnt := 0
    next_rtt_delivered := 0
    cycle_mstamp := 0
    mode := WbbrMode.startup
    prev_ca_state := 0
    packet_conservation := false
    restore_cwnd := false
    round_start := false
    tso_segs_goal := 2
    idle_restart := false
    probe_rtt_round_done := false
    lt_is_sampling := false
    lt_rtt_cnt := 0
    lt_use_bw := false
    lt_bw := 0
    lt_last_delivered := 0
    lt_last_stamp := 0
    lt_last_lost := 0
    pacing_gain := wbbr_high_gain
    cwnd_gain := wbbr_high_gain
    full_bw_cnt := 0
    cycle_idx := 0
    has_seen_rtt := true
    prior_cwnd := 0
    full_bw := 0
    instant_rate := 0
    snd_cwnd := 10
    sk_pacing_rate := 5
    tp_app_limited := 0 }

/-- Base environment record used to build concrete test inputs. -/
def env0 : Env :=
  { delivered := 0
    lost := 0
    delivered_mstamp_us := 0
    delivered_stamp_jiffies := 0
    tcp_time_stamp := 0
    in_flight := 0
    srtt_us := 0
    mtu := 1500
    snd_cwnd_clamp := 100
    max_pacing_rate := 2^32 - 1
    ca_state := 0
    rand := 0
    tso_autosize1 := 2
    tso_autosize2 := 2
    mpcb := none }

/-- Base rate-sample record used to build concrete test inputs. -/
def rs0 : RateSample :=
  { delivered := 0
    interval_us := 1
    rtt_us := -1
    losses := 0
    prior_in_flight := 0
    prior_delivered := 0
    is_app_limited := false
    acked_sacked := 0 }

/-- Two-subflow multipath group with instantaneous rates 3,000,000 and
1,000,000 bytes-per-second-scale units, both eligible to send. -/
def demo_group : List Subflow :=
  [{ can_send := true, instant_rate := 3000000 },
   { can_send := true, instant_rate := 1000000 }]

/-- Single-subflow group whose only member has a nonzero rate, used to probe
`wbbr_weight` for a caller whose own `instant_rate` is zero. -/
def lone_group : List Subflow := [{ can_send := true, instant_rate := 1000000 }]

/-- Claim C10 (confirmed): whenever the calling subflow's own `instant_rate`
is zero, `wbbr_weight` returns the full unscaled weight `WBBR_UNIT = 256`
rather than the proportional share 0, regardless of the (possibly nonzero)
total of the send-eligible siblings' rates. -/
theorem c10_zero_rate_weight (subs : List Subflow) :
    wbbr_weight (some subs) 0 = WBBR_UNIT := by
  simp [wbbr_weight]

/-- Claim C1, counterexample: with a present multipath group whose
send-eligible rate total is 1,000,000 but a calling subflow whose own
`instant_rate` is 0, the code returns 256, not the proportional share
`0 × 256 / total = 0` that the claim's formula demands. -/
theorem c1_counterexample :
    wbbr_total_rate lone_group ≠ 0 ∧
    wbbr_weight (some lone_group) 0 ≠
      0 * WBBR_UNIT / wbbr_total_rate lone_group := by
  decide

/-- Claim C1, amended: for every multipath group, `wbbr_weight` returns the
calling subflow's fractional share `(instant_rate × 256) / total` of the
aggregate rate of the send-eligible siblings, except that it returns exactly
256 when the group pointer is absent, when the total is zero, or — the
amendment — when the calling subflow's own `instant_rate` is zero. -/
theorem c1_amended (subs : List Subflow) (r : Nat) (hr : r < 2^24) :
    wbbr_weight (some subs) r =
      (if wbbr_total_rate subs = 0 ∨ r = 0 then WBBR_UNIT
       else r * WBBR_UNIT / wbbr_total_rate subs) ∧
    wbbr_weight none r = WBBR_UNIT := by
  constructor
  · simp only [wbbr_weight]
    by_cases h1 : wbbr_total_rate subs = 0
    · simp [h1]
    · by_cases h2 : r = 0
      · simp [h1, h2]
      · have hm : r * WBBR_UNIT % 4294967296 = r * WBBR_UNIT := by
          apply Nat.mod_eq_of_lt
          unfold WBBR_UNIT
          omega
        simp [h1, h2, hm]
  · rfl

/-- Claim C1, witness: sibling rates 3,000,000 and 1,000,000 yield raw
weights 192 and 64 (0.75 and 0.25 at unit-scale 256). -/
theorem c1_witness :
    wbbr_weight (some demo_group) 3000000 = 192 ∧
    wbbr_weight (some demo_group) 1000000 = 64 := by
  exact ⟨((c1_amended demo_group 3000000 (by norm_num)).1).trans (by decide),
         ((c1_amended demo_group 1000000 (by norm_num)).1).trans (by decide)⟩

/-- Claim C9 (confirmed): away from the never-measured sentinel, the target
congestion window is ceil(bandwidth × min-RTT × gain / unit-scale) plus a
headroom of 3 × the burst-size goal, rounded up to the next even number; with
the sentinel `min_rtt_us = ~0U` it is the default initial window
`TCP_INIT_CWND`.  The two bounds keep the 64-bit intermediate and the 32-bit
result inside their machine ranges, as the source's documented operating
range does. -/
theorem c9_target_cwnd (st : Wbbr) (bw gain : Nat)
    (h64 : bw * st.min_rtt_us * gain < 2^64)
    (h32 : ceilDiv ((bw * st.min_rtt_us * gain) >>> 8) BW_UNIT
             + 3 * st.tso_segs_goal + 1 < 2^32) :
    wbbr_target_cwnd st bw gain =
      if st.min_rtt_us = 2^32 - 1 then TCP_INIT_CWND
      else roundUpEven (ceilDiv ((bw * st.min_rtt_us * gain) >>> 8) BW_UNIT
             + 3 * st.tso_segs_goal) := by
  by_cases hs : st.min_rtt_us = 2^32 - 1
  · simp [wbbr_target_cwnd, hs]
  · rw [if_neg hs]
    show (if st.min_rtt_us = 2^32 - 1 then TCP_INIT_CWND
          else ((((bw * st.min_rtt_us * gain % 2^64) >>> 8 + BW_UNIT - 1) % 2^64 / BW_UNIT % 2^32
            + 3 * st.tso_segs_goal) % 2^32 + 1) % 2^32 / 2 * 2) = _
    rw [if_neg hs]
    have e1 : bw * st.min_rtt_us * gain % 2^64 = bw * st.min_rtt_us * gain :=
      Nat.mod_eq_of_lt h64
    rw [e1]
    have hsh : (bw * st.min_rtt_us * gain) >>> 8 = bw * st.min_rtt_us * gain / 2^8 :=
      Nat.shiftRight_eq_div_pow _ 8
    have e2 : (bw * st.min_rtt_us * gain) >>> 8 + BW_UNIT - 1 < 2^64 := by
      rw [hsh]
      unfold BW_UNIT
      omega
    rw [Nat.mod_eq_of_lt e2]
    have hceil : ((bw * st.min_rtt_us * gain) >>> 8 + BW_UNIT - 1) / BW_UNIT =
        ceilDiv ((bw * st.min_rtt_us * gain) >>> 8) BW_UNIT := rfl
    rw [hceil]
    have e4 : ceilDiv ((bw * st.min_rtt_us * gain) >>> 8) BW_UNIT < 2^32 := by omega
    rw [Nat.mod_eq_of_lt e4]
    have e5 : ceilDiv ((bw * st.min_rtt_us * gain) >>> 8) BW_UNIT
        + 3 * st.tso_segs_goal < 2^32 := by omega
    rw [Nat.mod_eq_of_lt e5, Nat.mod_eq_of_lt h32]
    rfl

/-- Concrete state for the C9 witness: a measured min RTT of 1000 µs and a
burst-size goal of 2 segments. -/
def stC9 : Wbbr := {st0 with min_rtt_us := 1000}

/-- Claim C9, witness: at bandwidth `2^24` (1 pkt/µs in the internal scale),
min RTT 1000 µs and gain 2.0 (512), the target window is
roundUpEven(2000 + 6) = 2006. -/
theorem c9_witness :
    wbbr_target_cwnd stC9 (2^24) 512 = 2006 := by
  have h := c9_target_cwnd stC9 (2^24) 512 (by decide) (by decide)
  rw [h]
  decide

/-- The C `abs((int)(a - b))` on `u32` operands equals the true absolute
difference whenever both operands are below `2^31`. -/
theorem u32abs_of_lt (a b : Nat) (ha : a < 2^31) (hb : b < 2^31) :
    (toS32 (u32sub a b)).natAbs = max a b - min a b := by
  unfold toS32 u32sub
  split <;> omega

/-- Claim C3 (confirmed): when a long-term interval closes with estimate `bw`
and a previous-interval estimate `lt_bw ≠ 0` is present, and the two are
consistent — relative difference at most 1/8 of the previous estimate
(`8 × |bw − lt_bw| ≤ lt_bw`), or absolute byte-rate difference at most
500 bytes/sec — then `wbbr_lt_bw_interval_done` sets `lt_bw` to the average
of the two estimates, activates long-term mode, pins the pacing gain to 256
(1.0), and restarts the long-term round counter at 0.  The `2^31` bounds keep
the 32-bit absolute-difference cast exact, as in the supported rate range. -/
theorem c3_policer_activation (env : Env) (st : Wbbr) (bw : Nat)
    (h0 : st.lt_bw ≠ 0) (hb : bw < 2^31) (hl : st.lt_bw < 2^31)
    (hcons : 8 * (max bw st.lt_bw - min bw st.lt_bw) ≤ st.lt_bw ∨
      wbbr_rate_bytes_per_sec env (max bw st.lt_bw - min bw st.lt_bw) WBBR_UNIT
        ≤ wbbr_lt_bw_diff) :
    (wbbr_lt_bw_interval_done env st bw).lt_bw = (bw + st.lt_bw) / 2 ∧
    (wbbr_lt_bw_interval_done env st bw).lt_use_bw = true ∧
    (wbbr_lt_bw_interval_done env st bw).pacing_gain = WBBR_UNIT ∧
    (wbbr_lt_bw_interval_done env st bw).lt_rtt_cnt = 0 := by
  have hd : (toS32 (u32sub bw st.lt_bw)).natAbs = max bw st.lt_bw - min bw st.lt_bw :=
    u32abs_of_lt bw st.lt_bw hb hl
  have hcons2 : (toS32 (u32sub bw st.lt_bw)).natAbs * WBBR_UNIT ≤ 32 * st.lt_bw ∨
      wbbr_rate_bytes_per_sec env (toS32 (u32sub bw st.lt_bw)).natAbs WBBR_UNIT
        ≤ wbbr_lt_bw_diff := by
    rw [hd]
    rcases hcons with h | h
    · left
      unfold WBBR_UNIT
      omega
    · exact Or.inr h
  unfold wbbr_lt_bw_interval_done
  rw [if_pos h0, if_pos hcons2]
  refine ⟨?_, rfl, rfl, rfl⟩
  show ((bw + st.lt_bw) % 2^32) >>> 1 = (bw + st.lt_bw) / 2
  rw [Nat.mod_eq_of_lt (by omega), Nat.shiftRight_eq_div_pow]

/-- Concrete state for the C3 witness: previous-interval estimate 1,000,000. -/
def stC3 : Wbbr := {st0 with lt_bw := 1000000}

/-- Claim C3, witness: closing estimates 1,000,000 and 1,050,000 (within the
1/8 relative band) produce the averaged policed estimate 1,025,000 with
long-term mode active, pacing gain 256 and the round counter restarted. -/
theorem c3_witness :
    (wbbr_lt_bw_interval_done env0 stC3 1050000).lt_bw = 1025000 ∧
    (wbbr_lt_bw_interval_done env0 stC3 1050000).lt_use_bw = true ∧
    (wbbr_lt_bw_interval_done env0 stC3 1050000).pacing_gain = WBBR_UNIT ∧
    (wbbr_lt_bw_interval_done env0 stC3 1050000).lt_rtt_cnt = 0 := by
  have h := c3_policer_activation env0 stC3 1050000 (by decide) (by decide) (by decide)
    (Or.inl (by decide))
  exact ⟨h.1.trans (by decide), h.2.1, h.2.2.1, h.2.2.2⟩

/-- Environment for the C2 counterexample: the connection is in loss recovery
(`icsk_ca_state = TCP_CA_Recovery = 3`) with nothing in flight. -/
def envC2 : Env := {env0 with ca_state := 3}

/-- Claim C2, counterexample: on the acknowledgment that enters loss recovery
(previous state Open), packet conservation sets the window to
in-flight + acked = 0 + 1 = 1, and `wbbr_set_cwnd` commits 1 — below the
4-packet minimum target — because the conservation path bypasses the floor. -/
theorem c2_counterexample :
    (wbbr_set_cwnd_to_recover_or_restore envC2 st0 rs0 1).2.2 = true ∧
    (wbbr_set_cwnd envC2 st0 rs0 1 0 WBBR_UNIT).snd_cwnd < wbbr_cwnd_min_target := by
  decide

/-- Claim C2, amended: whenever an acknowledgment is processed (`acked ≠ 0`),
the recovery path did not return with packet conservation in force, and the
global clamp is at least the minimum target, the congestion window committed
by `wbbr_set_cwnd` is at least 4 packets (including in ProbeRTT, where it is
capped to exactly the minimum target).  While packet conservation is active
the committed window is in-flight + acked based and can be below 4. -/
theorem c2_amended (env : Env) (st : Wbbr) (rs : RateSample) (acked bw gain : Nat)
    (hacked : ¬ acked = 0)
    (hcons : (wbbr_set_cwnd_to_recover_or_restore env st rs acked).2.2 = false)
    (hclamp : wbbr_cwnd_min_target ≤ env.snd_cwnd_clamp) :
    wbbr_cwnd_min_target ≤ (wbbr_set_cwnd env st rs acked bw gain).snd_cwnd := by
  simp only [wbbr_set_cwnd, hacked, if_false, hcons, Bool.false_eq_true,
    wbbr_cwnd_min_target] at *
  split <;> omega

/-- Claim C2, witness: outside recovery, with acked = 1 and clamp 100 the
committed window stays at or above the minimum target. -/
theorem c2_witness :
    wbbr_cwnd_min_target ≤ (wbbr_set_cwnd env0 st0 rs0 1 0 WBBR_UNIT).snd_cwnd :=
  c2_amended env0 st0 rs0 1 0 WBBR_UNIT (by decide) (by decide) (by decide)

/-- State for the C6 counterexample: the pipe-full estimate has been reached
(`full_bw_cnt = 3`) and the previously committed pacing rate is 1000. -/
def stC6 : Wbbr := {st0 with full_bw_cnt := 3, sk_pacing_rate := 1000}

/-- Claim C6, counterexample: with the pipe-full estimate already reached, a
lower model rate (here 0) is committed — the rate is lowered exactly when the
pipe-full estimate HAS been reached, contradicting the claim that it is only
lowered when the estimate has not yet been reached. -/
theorem c6_counterexample :
    wbbr_full_bw_reached stC6 ∧
    (wbbr_set_pacing_rate env0 stC6 0 WBBR_UNIT).sk_pacing_rate
      < stC6.sk_pacing_rate := by
  decide

/-- Claim C6, amended: outside the first-RTT bootstrap (`has_seen_rtt`
already set, or no smoothed RTT available), the committed pacing rate is
never lowered while the pipe-full estimate has not yet been reached — across
acknowledgments it is monotonic non-decreasing until then; once the pipe is
estimated full, the model's rate is committed unconditionally, so the rate
rises or falls freely with the model. -/
theorem c6_amended (env : Env) (st : Wbbr) (bw gain : Nat)
    (hboot : st.has_seen_rtt = true ∨ env.srtt_us = 0) :
    (¬ wbbr_full_bw_reached st →
      st.sk_pacing_rate ≤ (wbbr_set_pacing_rate env st bw gain).sk_pacing_rate) ∧
    (wbbr_full_bw_reached st →
      (wbbr_set_pacing_rate env st bw gain).sk_pacing_rate =
        wbbr_bw_to_pacing_rate env bw gain) := by
  unfold wbbr_set_pacing_rate
  have hb : ¬ (st.has_seen_rtt = false ∧ env.srtt_us ≠ 0) := by
    rcases hboot with h | h
    · simp [h]
    · simp [h]
  rw [if_neg hb]
  constructor
  · intro hfull
    by_cases hc : wbbr_full_bw_reached st ∨
        wbbr_bw_to_pacing_rate env bw gain > st.sk_pacing_rate
    · rw [if_pos hc]
      rcases hc with h | h
      · exact absurd h hfull
      · exact le_of_lt h
    · rw [if_neg hc]
  · intro hfull
    rw [if_pos (Or.inl hfull)]

/-- Claim C6, witness: pipe not yet full, no bootstrap — the committed rate
does not decrease. -/
theorem c6_witness :
    st0.sk_pacing_rate ≤ (wbbr_set_pacing_rate env0 st0 0 WBBR_UNIT).sk_pacing_rate :=
  (c6_amended env0 st0 0 WBBR_UNIT (Or.inl rfl)).1 (by decide)

/-- State for the C7 counterexample: long-term mode active and the pacing
gain currently pinned at 1.0, as `wbbr_lt_bw_interval_done` leaves it, about
to leave ProbeRTT. -/
def stC7 : Wbbr :=
  {st0 with lt_use_bw := true, mode := WbbrMode.probeRTT, pacing_gain := WBBR_UNIT}

/-- Claim C7, counterexample: `wbbr_reset_probe_bw_mode` — invoked by
`wbbr_reset_mode` when leaving ProbeRTT with the pipe-full estimate reached —
advances the gain cycle and loads a pacing gain from the table (here 320,
with random draw 0) while `lt_use_bw` is still set: the gain does not remain
pinned at 256 across mode resets. -/
theorem c7_counterexample :
    stC7.lt_use_bw = true ∧ stC7.pacing_gain = WBBR_UNIT ∧
    (wbbr_reset_probe_bw_mode env0 stC7).lt_use_bw = true ∧
    (wbbr_reset_probe_bw_mode env0 stC7).pacing_gain ≠ WBBR_UNIT := by
  decide

/-- Claim C7, amended: while `lt_use_bw` is set, the gain cycle never
advances — `wbbr_update_cycle_phase` is the identity, leaving `cycle_idx` and
`pacing_gain` untouched — and long-term activation itself pins the pacing
gain to 256; mode resets (entering Drain, or re-entering ProbeBW when
leaving ProbeRTT), however, may still change the pacing gain while
`lt_use_bw` is set. -/
theorem c7_amended (env : Env) (st : Wbbr) (rs : RateSample)
    (h : st.lt_use_bw = true) :
    wbbr_update_cycle_phase env st rs = st := by
  unfold wbbr_update_cycle_phase
  rw [if_neg]
  simp [h]

/-- State for the C7 witness: ProbeBW with long-term mode active. -/
def stC7b : Wbbr := {st0 with lt_use_bw := true, mode := WbbrMode.probeBW}

/-- Claim C7, witness: in ProbeBW with `lt_use_bw` set, the cycle-phase
update leaves the state unchanged. -/
theorem c7_witness : wbbr_update_cycle_phase env0 stC7b rs0 = stC7b :=
  c7_amended env0 stC7b rs0 rfl

/-- State for the C8 counterexample: a round boundary was just detected
(`round_start` set). -/
def stC8 : Wbbr := {st0 with round_start := true}

/-- Rate sample with a negative delivered count (`deliveredCount = -1`). -/
def rsC8 : RateSample := {rs0 with delivered := -1}

/-- Claim C8, counterexample: a full engine invocation with
`deliveredCount = -1` does NOT leave the state bit-for-bit unchanged:
`wbbr_update_bw` clears the `round_start` flag before the validity check, so
the invocation flips that bit even though the sample is discarded. -/
theorem c8_counterexample : wbbr_main env0 stC8 rsC8 ≠ stC8 := by
  decide

/-- Claim C8, amended: a rate sample with negative delivered count or
non-positive interval is discarded by `wbbr_update_bw` with the bandwidth
filter, round counters and all other model state left unchanged — except
that the round-start flag is unconditionally cleared first; a full engine
invocation is therefore not bit-for-bit state-preserving. -/
theorem c8_amended (env : Env) (st : Wbbr) (rs : RateSample)
    (hinv : rs.delivered < 0 ∨ rs.interval_us ≤ 0) :
    wbbr_update_bw env st rs = {st with round_start := false} := by
  simp only [wbbr_update_bw]
  rw [if_pos hinv]

/-- Claim C8, witness: the discarded `deliveredCount = -1` sample leaves
everything except the round-start flag unchanged. -/
theorem c8_witness :
    wbbr_update_bw env0 stC8 rsC8 = {stC8 with round_start := false} :=
  c8_amended env0 stC8 rsC8 (Or.inl (by decide))

/-- Claim C5 (confirmed): in ProbeBW and not in long-term mode, the phase
advances exactly under the spec's rule — `wbbr_is_next_cycle_phase` equals
the spec-side `cycle_phase_ends_spec` (gain 1.0: wall clock alone; gain
above 1.0: wall clock AND (in-flight reached the target at that gain, or a
loss); gain below 1.0: wall clock OR drained to the gain-1.0 target) — and
advancement increments the cycle index modulo 8 and loads the pacing gain
from the [1.25, 0.75, 1, 1, 1, 1, 1, 1] table (fixed point 320, 192, 256…). -/
theorem c5_cycle_phase (env : Env) (st : Wbbr) (rs : RateSample) :
    wbbr_is_next_cycle_phase env st rs = cycle_phase_ends_spec env st rs ∧
    wbbr_update_cycle_phase env st rs =
      (if st.mode = WbbrMode.probeBW ∧ st.lt_use_bw = false ∧
          wbbr_is_next_cycle_phase env st rs = true then
        wbbr_advance_cycle_phase env st
      else st) ∧
    (wbbr_advance_cycle_phase env st).cycle_idx = (st.cycle_idx + 1) % 8 ∧
    (wbbr_advance_cycle_phase env st).pacing_gain =
      wbbr_pacing_gain.getD ((st.cycle_idx + 1) % 8) 0 ∧
    wbbr_pacing_gain = [320, 192, 256, 256, 256, 256, 256, 256] := by
  refine ⟨?_, rfl, rfl, rfl, by decide⟩
  simp only [wbbr_is_next_cycle_phase, cycle_phase_ends_spec]
  rcases lt_trichotomy st.pacing_gain WBBR_UNIT with h | h | h
  · rw [if_neg (by omega : ¬ st.pacing_gain = WBBR_UNIT),
        if_neg (by omega : ¬ st.pacing_gain > WBBR_UNIT),
        if_neg (by omega : ¬ WBBR_UNIT < st.pacing_gain),
        if_pos h]
  · rw [if_pos h,
        if_neg (by omega : ¬ WBBR_UNIT < st.pacing_gain),
        if_neg (by omega : ¬ st.pacing_gain < WBBR_UNIT)]
  · rw [if_neg (by omega : ¬ st.pacing_gain = WBBR_UNIT),
        if_pos (h : WBBR_UNIT < st.pacing_gain),
        if_pos h,
        Bool.or_comm]

/-- State for the C4 counterexample: long-term sampling active, 4 rounds into
the interval. -/
def stC4 : Wbbr := {st0 with lt_is_sampling := true, lt_rtt_cnt := 4}

/-- Environment for the C4 counterexample: 256 packets delivered and 50 lost
since the interval marks, two jiffies elapsed. -/
def envC4 : Env := {env0 with lost := 50, delivered := 256, delivered_stamp_jiffies := 2}

/-- Rate sample for the C4 counterexample: one loss, not app-limited. -/
def rsC4 : RateSample := {rs0 with losses := 1}

/-- Claim C4, counterexample: the interval closes and yields an estimate
(`wbbr_lt_bw_interval_done` is reached) although the interval's loss ratio
lost/delivered = 50/256 ≈ 19.5% is strictly below the claimed 20% threshold:
the code's threshold is `wbbr_lt_loss_thresh / WBBR_UNIT = 50/256`, not 1/5. -/
theorem c4_counterexample :
    (wbbr_lt_bw_sampling_aux envC4 stC4 rsC4).2 = true ∧
    u32sub envC4.lost stC4.lt_last_lost * 5 <
      u32sub envC4.delivered stC4.lt_last_delivered := by
  decide

/-- Claim C4, amended: a long-term interval (begun only after the first loss)
closes with a bandwidth estimate only when, after this acknowledgment's round
accounting, between 4 and 16 round trips have elapsed, a loss occurs in the
current sample, and the interval's loss ratio satisfies
`lost × 256 ≥ 50 × delivered` (threshold 50/256 ≈ 19.5%, not exactly 20%);
an app-limited sample fully resets the sampling state, as does an interval
that has exceeded 16 round trips; and with sampling inactive and no loss the
state is untouched. -/
theorem c4_amended (env : Env) (st : Wbbr) (rs : RateSample) :
    ((wbbr_lt_bw_sampling_aux env st rs).2 = true →
      st.lt_use_bw = false ∧ st.lt_is_sampling = true ∧
      rs.is_app_limited = false ∧ rs.losses ≠ 0 ∧
      wbbr_lt_intvl_min_rtts ≤
        (if st.round_start then (st.lt_rtt_cnt + 1) % 128 else st.lt_rtt_cnt) ∧
      (if st.round_start then (st.lt_rtt_cnt + 1) % 128 else st.lt_rtt_cnt) ≤
        4 * wbbr_lt_intvl_min_rtts ∧
      u32sub env.delivered st.lt_last_delivered ≠ 0 ∧
      wbbr_lt_loss_thresh * u32sub env.delivered st.lt_last_delivered ≤
        u32sub env.lost st.lt_last_lost * WBBR_UNIT) ∧
    (st.lt_use_bw = false → st.lt_is_sampling = false → rs.losses = 0 →
      wbbr_lt_bw_sampling env st rs = st) ∧
    (st.lt_use_bw = false → (st.lt_is_sampling = true ∨ rs.losses ≠ 0) →
      rs.is_app_limited = true →
      wbbr_lt_bw_sampling env st rs = wbbr_reset_lt_bw_sampling env st) ∧
    (st.lt_use_bw = false → (st.lt_is_sampling = true ∨ rs.losses ≠ 0) →
      rs.is_app_limited = false →
      4 * wbbr_lt_intvl_min_rtts <
        (if st.round_start then
          ((if st.lt_is_sampling then st.lt_rtt_cnt else 0) + 1) % 128
         else (if st.lt_is_sampling then st.lt_rtt_cnt else 0)) →
      wbbr_lt_bw_sampling env st rs = wbbr_reset_lt_bw_sampling env st) := by
  refine ⟨?_, ?_, ?_, ?_⟩
  · intro hcl
    have h4 : wbbr_lt_intvl_min_rtts = 4 := rfl
    cases hbw : st.lt_use_bw with
    | true => exact absurd hcl (by simp [wbbr_lt_bw_sampling_aux, hbw])
    | false =>
    cases hsamp : st.lt_is_sampling with
    | false =>
      by_cases hl : rs.losses = 0
      · exact absurd hcl (by simp [wbbr_lt_bw_sampling_aux, hbw, hsamp, hl])
      · cases happ : rs.is_app_limited with
        | true => exact absurd hcl (by simp [wbbr_lt_bw_sampling_aux, hbw, hsamp, hl, happ])
        | false =>
          cases hrs : st.round_start with
          | true =>
            exact absurd hcl (by
              simp [wbbr_lt_bw_sampling_aux, hbw, hsamp, hl, happ, hrs,
                wbbr_reset_lt_bw_sampling_interval, wbbr_lt_intvl_min_rtts])
          | false =>
            exact absurd hcl (by
              simp [wbbr_lt_bw_sampling_aux, hbw, hsamp, hl, happ, hrs,
                wbbr_reset_lt_bw_sampling_interval, wbbr_lt_intvl_min_rtts])
    | true =>
    cases happ : rs.is_app_limited with
    | true => exact absurd hcl (by simp [wbbr_lt_bw_sampling_aux, hbw, hsamp, happ])
    | false =>
    by_cases hl : rs.losses = 0
    · exact absurd hcl (by simp [wbbr_lt_bw_sampling_aux, hbw, hsamp, happ, hl,
        apply_ite Prod.snd, ite_self])
    · cases hrs : st.round_start with
      | true =>
        by_cases hclt : (st.lt_rtt_cnt + 1) % 128 < wbbr_lt_intvl_min_rtts
        · exact absurd hcl (by
            simp [wbbr_lt_bw_sampling_aux, hbw, hsamp, happ, hl, hrs, hclt])
        · by_cases hcgt : 4 * wbbr_lt_intvl_min_rtts < (st.lt_rtt_cnt + 1) % 128
          · exact absurd hcl (by
              simp [wbbr_lt_bw_sampling_aux, hbw, hsamp, happ, hl, hrs, hclt, hcgt])
          · by_cases hrat : u32sub env.delivered st.lt_last_delivered = 0 ∨
                u32sub env.lost st.lt_last_lost * WBBR_UNIT <
                  wbbr_lt_loss_thresh * u32sub env.delivered st.lt_last_delivered
            · exact absurd hcl (by
                simp [wbbr_lt_bw_sampling_aux, hbw, hsamp, happ, hl, hrs, hclt, hcgt, hrat])
            · rcases not_or.mp hrat with ⟨hdel, hr2⟩
              refine ⟨rfl, rfl, rfl, hl, ?_, ?_, hdel, Nat.le_of_not_lt hr2⟩
              · simp only [if_pos]
                omega
              · simp only [if_pos]
                omega
      | false =>
        by_cases hclt : st.lt_rtt_cnt < wbbr_lt_intvl_min_rtts
        · exact absurd hcl (by
            simp [wbbr_lt_bw_sampling_aux, hbw, hsamp, happ, hl, hrs, hclt])
        · by_cases hcgt : 4 * wbbr_lt_intvl_min_rtts < st.lt_rtt_cnt
          · exact absurd hcl (by
              simp [wbbr_lt_bw_sampling_aux, hbw, hsamp, happ, hl, hrs, hclt, hcgt])
          · by_cases hrat : u32sub env.delivered st.lt_last_delivered = 0 ∨
                u32sub env.lost st.lt_last_lost * WBBR_UNIT <
                  wbbr_lt_loss_thresh * u32sub env.delivered st.lt_last_delivered
            · exact absurd hcl (by
                simp [wbbr_lt_bw_sampling_aux, hbw, hsamp, happ, hl, hrs, hclt, hcgt, hrat])
            · rcases not_or.mp hrat with ⟨hdel, hr2⟩
              refine ⟨rfl, rfl, rfl, hl, ?_, ?_, hdel, Nat.le_of_not_lt hr2⟩
              · simp only [if_neg (by decide : ¬ (false = true))]
                omega
              · simp only [if_neg (by decide : ¬ (false = true))]
                omega
  · intro h1 h2 h3
    simp [wbbr_lt_bw_sampling, wbbr_lt_bw_sampling_aux, h1, h2, h3]
  · intro h1 h2 h3
    simp only [wbbr_lt_bw_sampling, wbbr_lt_bw_sampling_aux, h1, h3]
    rcases h2 with h2 | h2
    · simp [h1, h2, h3, wbbr_reset_lt_bw_sampling, wbbr_reset_lt_bw_sampling_interval]
    · by_cases hs : st.lt_is_sampling
      · simp [h1, hs, h2, h3, wbbr_reset_lt_bw_sampling, wbbr_reset_lt_bw_sampling_interval]
      · simp [h1, hs, h2, h3, wbbr_reset_lt_bw_sampling, wbbr_reset_lt_bw_sampling_interval]
  · intro h1 h2 h3 hcnt
    by_cases hs : st.lt_is_sampling
    · by_cases hr : st.round_start
      · simp only [hs, hr] at hcnt
        simp only [if_true] at hcnt
        have h4 : wbbr_lt_intvl_min_rtts = 4 := rfl
        have hge : ¬ (st.lt_rtt_cnt + 1) % 128 < wbbr_lt_intvl_min_rtts := by omega
        simp [wbbr_lt_bw_sampling, wbbr_lt_bw_sampling_aux, h1, h2, h3, hs, hr,
          hge, hcnt, wbbr_reset_lt_bw_sampling, wbbr_reset_lt_bw_sampling_interval]
      · simp [hs, hr] at hcnt
        have h4 : wbbr_lt_intvl_min_rtts = 4 := rfl
        have hge : ¬ st.lt_rtt_cnt < wbbr_lt_intvl_min_rtts := by omega
        simp [wbbr_lt_bw_sampling, wbbr_lt_bw_sampling_aux, h1, h2, h3, hs, hr,
          hge, hcnt, wbbr_reset_lt_bw_sampling, wbbr_reset_lt_bw_sampling_interval]
    · -- sampling restarts at count 0, so the count cannot exceed 16
      exfalso
      have h4 : wbbr_lt_intvl_min_rtts = 4 := rfl
      by_cases hr : st.round_start
      · simp [hs, hr] at hcnt
        omega
      · simp [hs, hr] at hcnt

/-- Claim C4, witness: a concrete interval that closes (sampling active,
4 rounds, a loss, ratio 50/256) satisfies every gating fact of the amended
claim. -/
theorem c4_witness :
    stC4.lt_use_bw = false ∧ stC4.lt_is_sampling = true ∧
    rsC4.is_app_limited = false ∧ rsC4.losses ≠ 0 ∧
    wbbr_lt_intvl_min_rtts ≤
      (if stC4.round_start then (stC4.lt_rtt_cnt + 1) % 128 else stC4.lt_rtt_cnt) ∧
    (if stC4.round_start then (stC4.lt_rtt_cnt + 1) % 128 else stC4.lt_rtt_cnt) ≤
      4 * wbbr_lt_intvl_min_rtts ∧
    u32sub envC4.delivered stC4.lt_last_delivered ≠ 0 ∧
    wbbr_lt_loss_thresh * u32sub envC4.delivered stC4.lt_last_delivered ≤
      u32sub envC4.lost stC4.lt_last_lost * WBBR_UNIT :=
  (c4_amended envC4 stC4 rsC4).1 (by decide)
